import Mathlib

/-!
Shallow embedding of the Notebook-AI documentation pipeline
(`src/app.py` and `src/streamlit_app.py`, class `NotebookDocumenter`,
plus `download_colab_notebook` from the streamlit entry point).

The completion client (`groq`) is modelled as an oracle
`Nat → Except String String`: call number `k` receives the oracle's
`k`-th answer, `Except.ok text` for a successful completion and
`Except.error e` for a raised transport/service exception with message
`e`.  The client state also records the full trace of requests issued,
in order, so that call counts and call order are observable.
Prompt rendering (the long English template literals in the source) is
modelled by the inductive `Prompt`, which keeps exactly the data the
templates are injective in: which template was used, and the code /
context strings substituted into it.  Python's `str.strip()` is
modelled by the kernel-computable `pyStrip`, and Python string
truthiness (`if doc:`) by comparison with `""`.
-/

/-- Notebook cell kinds. `nbformat` cells carry `cell_type ∈ {code,
markdown, raw}`; the pipeline compares this tag against the literals
`'code'` and `'markdown'`. -/
inductive CellType where
  | code
  | markdown
  | raw
deriving DecidableEq, Repr

/-- A cell as stored in a parsed notebook: besides `cell_type` and
`source` it carries execution outputs, an execution count and metadata,
which the pipeline never reads. -/
structure RawCell where
  cell_type : CellType
  source : String
  outputs : List String
  execution_count : Option Nat
  metadata : List (String × String)
deriving DecidableEq, Repr

/-- The dictionary `{'type': cell.cell_type, 'content': cell.source}`
built by `extract_cells`. -/
structure Cell where
  type : CellType
  content : String
deriving DecidableEq, Repr

/-- `nbformat.v4.new_markdown_cell(s)`: a freshly constructed markdown
cell whose only payload is the source text. -/
def new_markdown_cell (s : String) : RawCell :=
  ⟨CellType.markdown, s, [], none, []⟩

/-- `nbformat.v4.new_code_cell(s)`: a freshly constructed code cell
whose only payload is the source text. -/
def new_code_cell (s : String) : RawCell :=
  ⟨CellType.code, s, [], none, []⟩

/-- `NotebookDocumenter.extract_cells` (both entry points):
`[{'type': cell.cell_type, 'content': cell.source} for cell in nb.cells]`.
Only the kind and the source text are kept. -/
def extract_cells (nb : List RawCell) : List Cell :=
  nb.map fun c => ⟨c.cell_type, c.source⟩

/-- A completion request, identified by which prompt template was
rendered and the strings substituted into it (the templates are fixed
English literals, injective in their arguments). -/
inductive Prompt where
  | overview (all_code : String)
  | cellDoc (cell_content : String) (full_context : String)
deriving DecidableEq, Repr

/-- State of the completion client: the response oracle, the number of
calls already issued, and the trace of requests issued so far. -/
structure ClientState where
  oracle : Nat → Except String String
  calls : Nat
  trace : List Prompt

/-- One `client.chat.completions.create(...)` round trip: the `k`-th
call receives `oracle k`; the request is appended to the trace. -/
def callLLM (p : Prompt) (st : ClientState) : Except String String × ClientState :=
  (st.oracle st.calls, { st with calls := st.calls + 1, trace := st.trace ++ [p] })

/-- A client that has issued no calls yet. -/
def freshState (o : Nat → Except String String) : ClientState :=
  ⟨o, 0, []⟩

/-- Python `str.strip()`: drop whitespace from both ends.  Defined
over the character list so that it evaluates inside the kernel. -/
def pyStrip (s : String) : String :=
  ⟨((s.data.dropWhile Char.isWhitespace).reverse.dropWhile Char.isWhitespace).reverse⟩

namespace App

/-- `app.py` `get_notebook_overview`: joins all code cells' content with
`"\n"`, issues one completion call, returns the stripped response text,
or on an exception the fixed fallback string. -/
def get_notebook_overview (cells : List Cell) (st : ClientState) : String × ClientState :=
  let all_code := String.intercalate "\n"
    ((cells.filter fun c => c.type == CellType.code).map Cell.content)
  let r := callLLM (Prompt.overview all_code) st
  ((match r.1 with
    | Except.ok t => pyStrip t
    | Except.error _ => "# Jupyter Notebook Documentation\n\n*Error generating overview*"),
   r.2)

/-- `app.py` `generate_cell_doc`: always issues one completion call
(there is no empty-content guard in this entry point), returns the
stripped response, or on an exception the fixed marker string. -/
def generate_cell_doc (cell_content full_context : String) (st : ClientState) :
    String × ClientState :=
  let r := callLLM (Prompt.cellDoc cell_content full_context) st
  ((match r.1 with
    | Except.ok t => pyStrip t
    | Except.error _ => "*Error generating documentation*"),
   r.2)

end App

namespace Streamlit

/-- `streamlit_app.py` `get_notebook_overview`: same structure as the
CLI variant, but the exception fallback interpolates `str(e)`. -/
def get_notebook_overview (cells : List Cell) (st : ClientState) : String × ClientState :=
  let all_code := String.intercalate "\n"
    ((cells.filter fun c => c.type == CellType.code).map Cell.content)
  let r := callLLM (Prompt.overview all_code) st
  ((match r.1 with
    | Except.ok t => pyStrip t
    | Except.error e =>
        "# Jupyter Notebook Documentation\n\n*Error generating overview: " ++ e ++ "*"),
   r.2)

/-- `streamlit_app.py` `generate_cell_doc`: returns `""` with no
completion call when the cell content strips to empty; otherwise issues
one call, returning the stripped response, or on an exception a marker
interpolating `str(e)`. -/
def generate_cell_doc (cell_content full_context : String) (st : ClientState) :
    String × ClientState :=
  if pyStrip cell_content == "" then ("", st)
  else
    let r := callLLM (Prompt.cellDoc cell_content full_context) st
    ((match r.1 with
      | Except.ok t => pyStrip t
      | Except.error e => "*Error generating documentation: " ++ e ++ "*"),
     r.2)

end Streamlit

/-- The `for cell in cells:` loop of `create_documented_notebook`,
identical in both entry points (the streamlit progress bar is a UI
side effect with no data flow): a code cell with non-empty stripped
content gets an annotation call, whose non-empty result is emitted as a
markdown cell immediately before the (re-constructed) code cell; a
markdown cell is emitted in place; any other cell — including a code
cell whose content strips to empty — falls through both branches and is
emitted nowhere. -/
def documentCellsLoop (annotate : String → ClientState → String × ClientState) :
    List Cell → ClientState → List RawCell × ClientState
  | [], st => ([], st)
  | cell :: cells, st =>
    if cell.type == CellType.code && pyStrip cell.content != "" then
      let r := annotate cell.content st
      let rest := documentCellsLoop annotate cells r.2
      ((if r.1 != "" then [new_markdown_cell r.1] else []) ++
         new_code_cell cell.content :: rest.1,
       rest.2)
    else if cell.type == CellType.markdown then
      let rest := documentCellsLoop annotate cells st
      (new_markdown_cell cell.content :: rest.1, rest.2)
    else
      documentCellsLoop annotate cells st

namespace App

/-- Body of `app.py` `create_documented_notebook` after
`cells = self.extract_cells(input_path)`: overview call first, then the
`"\n\n"`-joined full context, then the per-cell loop. -/
def document_cells (cells : List Cell) (st : ClientState) : List RawCell × ClientState :=
  let ov := get_notebook_overview cells st
  let full_context := String.intercalate "\n\n"
    ((cells.filter fun c => c.type == CellType.code).map Cell.content)
  let rest := documentCellsLoop (fun code s => generate_cell_doc code full_context s) cells ov.2
  (new_markdown_cell ov.1 :: rest.1, rest.2)

/-- `app.py` `create_documented_notebook` (file I/O at the boundary
replaced by the parsed cell list): extract the cells, then run the
documentation pipeline on them. -/
def create_documented_notebook (nb : List RawCell) (st : ClientState) :
    List RawCell × ClientState :=
  document_cells (extract_cells nb) st

end App

namespace Streamlit

/-- Body of `streamlit_app.py` `create_documented_notebook` after
`cells = self.extract_cells(notebook_content)`. -/
def document_cells (cells : List Cell) (st : ClientState) : List RawCell × ClientState :=
  let ov := get_notebook_overview cells st
  let full_context := String.intercalate "\n\n"
    ((cells.filter fun c => c.type == CellType.code).map Cell.content)
  let rest := documentCellsLoop (fun code s => generate_cell_doc code full_context s) cells ov.2
  (new_markdown_cell ov.1 :: rest.1, rest.2)

/-- `streamlit_app.py` `create_documented_notebook`: extract the cells,
then run the documentation pipeline on them, returning the new
notebook. -/
def create_documented_notebook (nb : List RawCell) (st : ClientState) :
    List RawCell × ClientState :=
  document_cells (extract_cells nb) st

end Streamlit

/-! ## Link resolver (`download_colab_notebook`, streamlit entry point)

The three regular expressions of the source are searched with
`re.search` semantics: leftmost position at which the whole pattern
matches, with the greedy character-class group capturing the maximal
run.  The character class of all three patterns is `[a-zA-Z0-9-_]`. -/

/-- Membership in the character class `[a-zA-Z0-9-_]`. -/
def isIdChar (c : Char) : Bool :=
  c.isAlphanum || c == '-' || c == '_'

/-- `re.search` for a pattern of shape `lit([a-zA-Z0-9-_]+)`: the
leftmost position where the literal `lit` occurs followed by at least
one class character; the group greedily captures the maximal run. -/
def searchLitId (lit : List Char) : List Char → Option (List Char)
  | [] => none
  | s@(_ :: rest) =>
    if lit.isPrefixOf s then
      let cap := (s.drop lit.length).takeWhile isIdChar
      if cap.isEmpty then searchLitId lit rest else some cap
    else searchLitId lit rest

/-- `re.search` for the pattern `\/([a-zA-Z0-9-_]{20,})`: the leftmost
slash followed by at least 20 class characters; the group greedily
captures the maximal run. -/
def searchSlash20 : List Char → Option (List Char)
  | [] => none
  | c :: rest =>
    if c == '/' then
      let cap := rest.takeWhile isIdChar
      if cap.length ≥ 20 then some cap else searchSlash20 rest
    else searchSlash20 rest

/-- The identifier-extraction loop of `download_colab_notebook`: the
three patterns are tried in order and the first match wins. -/
def extract_file_id (colab_url : String) : Option String :=
  let s := colab_url.toList
  match searchLitId "/d/".toList s with
  | some cap => some ⟨cap⟩
  | none =>
    match searchLitId "drive/".toList s with
    | some cap => some ⟨cap⟩
    | none => (searchSlash20 s).map fun cap => ⟨cap⟩

/-- An HTTP response as observed by the source: a status code and a
body. -/
structure HttpResponse where
  status_code : Nat
  content : String

/-- The `ValueError` message raised when no pattern matches. -/
def idErrorMsg : String :=
  "Could not extract file ID from the provided Colab URL"

/-- The `ValueError` raised when both download attempts fail.  The
source's message is a longer multi-line explanation ("Unable to download
the notebook. This might be because: 1. The notebook is not publicly
shared 2. The URL format is not supported 3. Google Drive access
restrictions ..."); it is condensed here, content preserved. -/
def notPublicMsg : String :=
  "Unable to download the notebook: the notebook may not be publicly shared, the URL format may be unsupported, or Google Drive access restrictions may apply."

/-- The `for download_url in download_urls:` loop: request each URL
(`net` models `requests.get`, `Except.error` a raised exception;
`parse` models `nbformat.reads`, `none` a parse exception); return the
first response with status 200 that parses, else try the next URL.
The second component accumulates the URLs actually requested. -/
def tryDownloadUrls (net : String → Except String HttpResponse)
    (parse : String → Option (List RawCell)) :
    List String → List String → Except String (List RawCell) × List String
  | [], visited => (Except.error notPublicMsg, visited)
  | u :: us, visited =>
    match net u with
    | Except.ok r =>
      if r.status_code == 200 then
        match parse r.content with
        | some nb => (Except.ok nb, visited ++ [u])
        | none => tryDownloadUrls net parse us (visited ++ [u])
      else tryDownloadUrls net parse us (visited ++ [u])
    | Except.error _ => tryDownloadUrls net parse us (visited ++ [u])

/-- `streamlit_app.py` `download_colab_notebook`: extract a file id by
the ordered pattern matchers (raising the identifier-not-found error,
with no request, if none matches), then try the two canonical download
URL templates in order.  Returns the result together with the list of
URLs requested, in order. -/
def download_colab_notebook (net : String → Except String HttpResponse)
    (parse : String → Option (List RawCell)) (colab_url : String) :
    Except String (List RawCell) × List String :=
  match extract_file_id colab_url with
  | none => (Except.error idErrorMsg, [])
  | some file_id =>
    tryDownloadUrls net parse
      ["https://drive.google.com/uc?id=" ++ file_id,
       "https://drive.google.com/uc?export=download&id=" ++ file_id] []

/-! ## Statement-side helpers -/

/-- A cell that the assembler loop emits at all: a code cell with
non-empty stripped content, or a markdown cell. -/
def keepCell (c : Cell) : Bool :=
  (c.type == CellType.code && pyStrip c.content != "") || c.type == CellType.markdown

/-- A cell for which the loop requests an annotation: a code cell with
non-empty stripped content. -/
def annotatedCell (c : Cell) : Bool :=
  c.type == CellType.code && pyStrip c.content != ""

/-- The fresh output cell corresponding to an original kept cell. -/
def rawOf (c : Cell) : RawCell :=
  if c.type == CellType.code then new_code_cell c.content else new_markdown_cell c.content

/-- The contents of all code cells, in order (empty ones included). -/
def codeContents (cells : List Cell) : List String :=
  (cells.filter fun c => c.type == CellType.code).map Cell.content

/-- A cell carrying no outputs, no execution count and no metadata. -/
def freshCell (c : RawCell) : Bool :=
  c.outputs.isEmpty && c.execution_count == none && c.metadata.isEmpty

/-- Expected download result given concrete network and parse oracles:
`none` if the response errors, has a non-200 status, or fails to
parse. -/
def fetchOk (net : String → Except String HttpResponse)
    (parse : String → Option (List RawCell)) (u : String) : Option (List RawCell) :=
  match net u with
  | Except.ok r => if r.status_code == 200 then parse r.content else none
  | Except.error _ => none

/-! ## Core lemmas about the assembler loop -/

theorem app_cell_doc_snd (c ctx : String) (st : ClientState) :
    (App.generate_cell_doc c ctx st).2 =
      { st with calls := st.calls + 1, trace := st.trace ++ [Prompt.cellDoc c ctx] } := rfl

theorem streamlit_cell_doc_snd (c ctx : String) (st : ClientState)
    (h : pyStrip c ≠ "") :
    (Streamlit.generate_cell_doc c ctx st).2 =
      { st with calls := st.calls + 1, trace := st.trace ++ [Prompt.cellDoc c ctx] } := by
  have hb : (pyStrip c == "") = false := beq_eq_false_iff_ne.mpr h
  simp [Streamlit.generate_cell_doc, hb, callLLM]

/-- Trace, call count and oracle of the client after the assembler
loop, for any annotator that issues exactly one `cellDoc` call per
non-blank code cell. -/
theorem documentCellsLoop_state (annotate : String → ClientState → String × ClientState)
    (ctx : String)
    (hA : ∀ content st, pyStrip content ≠ "" →
      (annotate content st).2 =
        { st with calls := st.calls + 1, trace := st.trace ++ [Prompt.cellDoc content ctx] })
    (cells : List Cell) : ∀ st : ClientState,
    (documentCellsLoop annotate cells st).2.trace
        = st.trace ++ (cells.filter annotatedCell).map
            (fun c => Prompt.cellDoc c.content ctx)
      ∧ (documentCellsLoop annotate cells st).2.calls
        = st.calls + (cells.filter annotatedCell).length
      ∧ (documentCellsLoop annotate cells st).2.oracle = st.oracle := by
  induction cells with
  | nil => intro st; simp [documentCellsLoop]
  | cons cell cells ih =>
    intro st
    by_cases hc : (cell.type == CellType.code && pyStrip cell.content != "") = true
    · have hct : pyStrip cell.content ≠ "" := by
        have h2 := ((Bool.and_eq_true _ _).mp hc).2
        exact bne_iff_ne.mp h2
      have hfc : annotatedCell cell = true := hc
      have hst := hA cell.content st hct
      simp only [documentCellsLoop]
      rw [if_pos hc, hst]
      obtain ⟨iht, ihc, iho⟩ :=
        ih { st with calls := st.calls + 1, trace := st.trace ++ [Prompt.cellDoc cell.content ctx] }
      refine ⟨?_, ?_, ?_⟩
      · dsimp only; rw [iht]; simp [hfc, List.append_assoc]
      · dsimp only; rw [ihc]; simp [hfc]; omega
      · dsimp only; rw [iho]
    · have hfc : annotatedCell cell = false := Bool.eq_false_iff.mpr hc
      by_cases hm : (cell.type == CellType.markdown) = true
      · simp only [documentCellsLoop]
        rw [if_neg hc, if_pos hm]
        simpa [hfc] using ih st
      · simp only [documentCellsLoop]
        rw [if_neg hc, if_neg hm]
        simpa [hfc] using ih st

/-- Every kept original cell (non-blank code cells and markdown
cells) appears, in order, as a sublist of the loop's output. -/
theorem documentCellsLoop_sublist (annotate : String → ClientState → String × ClientState)
    (cells : List Cell) : ∀ st : ClientState,
    ((cells.filter keepCell).map rawOf).Sublist (documentCellsLoop annotate cells st).1 := by
  induction cells with
  | nil => intro st; simp [documentCellsLoop]
  | cons cell cells ih =>
    intro st
    by_cases hc : (cell.type == CellType.code && pyStrip cell.content != "") = true
    · have hk : keepCell cell = true := by simp [keepCell, hc]
      have hcode : (cell.type == CellType.code) = true := ((Bool.and_eq_true _ _).mp hc).1
      have hr : rawOf cell = new_code_cell cell.content := by simp [rawOf, hcode]
      simp only [documentCellsLoop]
      rw [if_pos hc, List.filter_cons_of_pos hk, List.map_cons, hr]
      refine List.Sublist.trans ?_ (List.sublist_append_right _ _)
      exact (ih _).cons₂ _
    · by_cases hm : (cell.type == CellType.markdown) = true
      · have hk : keepCell cell = true := by simp [keepCell, hm]
        have hcode : (cell.type == CellType.code) = false := by
          by_cases h : (cell.type == CellType.code) = true
          · exfalso
            have h1 := beq_iff_eq.mp h
            have h2 := beq_iff_eq.mp hm
            rw [h1] at h2
            cases h2
          · exact Bool.eq_false_iff.mpr h
        have hr : rawOf cell = new_markdown_cell cell.content := by simp [rawOf, hcode]
        simp only [documentCellsLoop]
        rw [if_neg hc, if_pos hm, List.filter_cons_of_pos hk, List.map_cons, hr]
        exact (ih st).cons₂ _
      · have hk : keepCell cell = false := by
          simp [keepCell, Bool.eq_false_iff.mpr hc, Bool.eq_false_iff.mpr hm]
        simp only [documentCellsLoop]
        rw [if_neg hc, if_neg hm, List.filter_cons_of_neg (by simp [hk])]
        exact ih st

/-- Output of the loop when the annotator deterministically returns a
fixed non-empty marker for every non-blank code cell (as it does when
every completion call raises). -/
theorem documentCellsLoop_marker (annotate : String → ClientState → String × ClientState)
    (marker : String) (o : Nat → Except String String)
    (hA : ∀ content st, st.oracle = o → pyStrip content ≠ "" →
      (annotate content st).1 = marker ∧ (annotate content st).2.oracle = o)
    (hm : marker ≠ "") (cells : List Cell) : ∀ st : ClientState, st.oracle = o →
    (documentCellsLoop annotate cells st).1 =
      cells.flatMap (fun c =>
        if annotatedCell c then [new_markdown_cell marker, new_code_cell c.content]
        else if c.type == CellType.markdown then [new_markdown_cell c.content]
        else []) := by
  induction cells with
  | nil => intro st _; simp [documentCellsLoop]
  | cons cell cells ih =>
    intro st hst
    by_cases hc : (cell.type == CellType.code && pyStrip cell.content != "") = true
    · have hct : pyStrip cell.content ≠ "" := by
        have h2 := ((Bool.and_eq_true _ _).mp hc).2
        exact bne_iff_ne.mp h2
      have hfc : annotatedCell cell = true := hc
      obtain ⟨h1, h2⟩ := hA cell.content st hst hct
      have hne : ((annotate cell.content st).1 != "") = true := by
        rw [h1]; exact bne_iff_ne.mpr hm
      simp only [documentCellsLoop]
      rw [if_pos hc]
      dsimp only
      rw [if_pos hne, h1, ih _ h2, List.flatMap_cons, if_pos hfc]
      simp
    · have hfc : annotatedCell cell = false := Bool.eq_false_iff.mpr hc
      by_cases hmk : (cell.type == CellType.markdown) = true
      · simp only [documentCellsLoop]
        rw [if_neg hc, if_pos hmk, List.flatMap_cons, if_neg (by simp [hfc]), if_pos hmk]
        dsimp only
        rw [ih st hst]
        rfl
      · simp only [documentCellsLoop]
        rw [if_neg hc, if_neg hmk, List.flatMap_cons, if_neg (by simp [hfc]), if_neg hmk]
        rw [ih st hst]
        rfl

/-- Every cell the loop emits is freshly constructed: no outputs, no
execution count, no metadata. -/
theorem documentCellsLoop_fresh (annotate : String → ClientState → String × ClientState)
    (cells : List Cell) : ∀ st : ClientState,
    (documentCellsLoop annotate cells st).1.all freshCell = true := by
  induction cells with
  | nil => intro st; simp [documentCellsLoop]
  | cons cell cells ih =>
    intro st
    by_cases hc : (cell.type == CellType.code && pyStrip cell.content != "") = true
    · simp only [documentCellsLoop]
      rw [if_pos hc]
      by_cases hd : ((annotate cell.content st).1 != "") = true
      · dsimp only
        rw [if_pos hd]
        simp [List.all_cons, List.all_append, ih _, freshCell, new_markdown_cell, new_code_cell]
      · dsimp only
        rw [if_neg hd]
        simp [List.all_cons, ih _, freshCell, new_code_cell]
    · by_cases hm : (cell.type == CellType.markdown) = true
      · simp only [documentCellsLoop]
        rw [if_neg hc, if_pos hm]
        simp [List.all_cons, ih st, freshCell, new_markdown_cell]
      · simp only [documentCellsLoop]
        rw [if_neg hc, if_neg hm]
        exact ih st

/-! ## Run-level helper lemmas -/

theorem string_append_star_ne (s : String) : s ++ "*" ≠ "" := by
  intro h
  have hl := congrArg String.length h
  rw [String.length_append] at hl
  have h1 : ("*" : String).length = 1 := rfl
  have h2 : ("" : String).length = 0 := rfl
  omega

theorem app_overview_snd (cells : List Cell) (st : ClientState) :
    (App.get_notebook_overview cells st).2 =
      { st with
        calls := st.calls + 1
        trace := st.trace ++
          [Prompt.overview (String.intercalate "\n" (codeContents cells))] } := rfl

theorem streamlit_overview_snd (cells : List Cell) (st : ClientState) :
    (Streamlit.get_notebook_overview cells st).2 =
      { st with
        calls := st.calls + 1
        trace := st.trace ++
          [Prompt.overview (String.intercalate "\n" (codeContents cells))] } := rfl

/-- Trace and call count of a full CLI pipeline run from a fresh
client. -/
theorem app_run_state (o : Nat → Except String String) (nb : List RawCell) :
    (App.create_documented_notebook nb (freshState o)).2.trace
        = Prompt.overview (String.intercalate "\n" (codeContents (extract_cells nb)))
            :: ((extract_cells nb).filter annotatedCell).map
              (fun c => Prompt.cellDoc c.content
                (String.intercalate "\n\n" (codeContents (extract_cells nb))))
      ∧ (App.create_documented_notebook nb (freshState o)).2.calls
          = 1 + ((extract_cells nb).filter annotatedCell).length := by
  have e2 : (App.create_documented_notebook nb (freshState o)).2
      = (documentCellsLoop
          (fun code s => App.generate_cell_doc code
            (String.intercalate "\n\n" (codeContents (extract_cells nb))) s)
          (extract_cells nb)
          ((App.get_notebook_overview (extract_cells nb) (freshState o)).2)).2 := rfl
  obtain ⟨ht, hcnt, -⟩ := documentCellsLoop_state
      (fun code s => App.generate_cell_doc code
        (String.intercalate "\n\n" (codeContents (extract_cells nb))) s)
      (String.intercalate "\n\n" (codeContents (extract_cells nb)))
      (fun content st _ => rfl)
      (extract_cells nb)
      ((App.get_notebook_overview (extract_cells nb) (freshState o)).2)
  constructor
  · rw [e2, ht, app_overview_snd]
    simp [freshState]
  · rw [e2, hcnt, app_overview_snd]
    simp [freshState]

/-- Trace and call count of a full streamlit pipeline run from a fresh
client. -/
theorem streamlit_run_state (o : Nat → Except String String) (nb : List RawCell) :
    (Streamlit.create_documented_notebook nb (freshState o)).2.trace
        = Prompt.overview (String.intercalate "\n" (codeContents (extract_cells nb)))
            :: ((extract_cells nb).filter annotatedCell).map
              (fun c => Prompt.cellDoc c.content
                (String.intercalate "\n\n" (codeContents (extract_cells nb))))
      ∧ (Streamlit.create_documented_notebook nb (freshState o)).2.calls
          = 1 + ((extract_cells nb).filter annotatedCell).length := by
  have e2 : (Streamlit.create_documented_notebook nb (freshState o)).2
      = (documentCellsLoop
          (fun code s => Streamlit.generate_cell_doc code
            (String.intercalate "\n\n" (codeContents (extract_cells nb))) s)
          (extract_cells nb)
          ((Streamlit.get_notebook_overview (extract_cells nb) (freshState o)).2)).2 := rfl
  obtain ⟨ht, hcnt, -⟩ := documentCellsLoop_state
      (fun code s => Streamlit.generate_cell_doc code
        (String.intercalate "\n\n" (codeContents (extract_cells nb))) s)
      (String.intercalate "\n\n" (codeContents (extract_cells nb)))
      (fun content st h => streamlit_cell_doc_snd content _ st h)
      (extract_cells nb)
      ((Streamlit.get_notebook_overview (extract_cells nb) (freshState o)).2)
  constructor
  · rw [e2, ht, streamlit_overview_snd]
    simp [freshState]
  · rw [e2, hcnt, streamlit_overview_snd]
    simp [freshState]

/-- One step of the download-URL loop, expressed through `fetchOk`. -/
theorem tryDownloadUrls_cons (net : String → Except String HttpResponse)
    (parse : String → Option (List RawCell)) (u : String) (us visited : List String) :
    tryDownloadUrls net parse (u :: us) visited =
      match fetchOk net parse u with
      | some nb => (Except.ok nb, visited ++ [u])
      | none => tryDownloadUrls net parse us (visited ++ [u]) := by
  cases hn : net u with
  | error e => simp [tryDownloadUrls, fetchOk, hn]
  | ok r =>
    by_cases hs : (r.status_code == 200) = true
    · cases hp : parse r.content with
      | none => simp [tryDownloadUrls, fetchOk, hn, hs, hp]
      | some nb => simp [tryDownloadUrls, fetchOk, hn, hs, hp]
    · have hs' := Bool.eq_false_iff.mpr hs
      simp [tryDownloadUrls, fetchOk, hn, hs']

/-! ## Claim theorems -/

/-- Claim C1, counterexample: the input notebook consists of exactly
one cell, a code cell with empty content; the output of either entry
point contains no code cell at all — the empty code cell is dropped,
not emitted — so not every original cell appears in the output (no
annotation is attempted for it either: the trace holds only the
overview call). -/
theorem c1_counterexample :
    extract_cells [RawCell.mk CellType.code "" [] none []] = [Cell.mk CellType.code ""]
  ∧ (App.create_documented_notebook [RawCell.mk CellType.code "" [] none []]
      (freshState fun _ => Except.ok "D")).1 = [new_markdown_cell "D"]
  ∧ (Streamlit.create_documented_notebook [RawCell.mk CellType.code "" [] none []]
      (freshState fun _ => Except.ok "D")).1 = [new_markdown_cell "D"]
  ∧ (App.create_documented_notebook [RawCell.mk CellType.code "" [] none []]
      (freshState fun _ => Except.ok "D")).2.trace = [Prompt.overview ""] := by
  refine ⟨rfl, by decide, by decide, by decide⟩

/-- Claim C1, amended: every original markdown cell and every code
cell whose content is non-empty after stripping appears (by kind and
content) in the output after the overview cell, in original relative
order; but code cells whose content strips to empty — and cells of any
other kind — are dropped from the output entirely, with no annotation
attempt. -/
theorem c1_kept_cells_in_order (o : Nat → Except String String) (nb : List RawCell)
    (ctx : String) (c : Cell) (cs : List Cell) (st : ClientState)
    (h : keepCell c = false) :
    (((extract_cells nb).filter keepCell).map rawOf).Sublist
        ((App.create_documented_notebook nb (freshState o)).1.tail)
  ∧ (((extract_cells nb).filter keepCell).map rawOf).Sublist
        ((Streamlit.create_documented_notebook nb (freshState o)).1.tail)
  ∧ documentCellsLoop (fun code s => App.generate_cell_doc code ctx s) (c :: cs) st
      = documentCellsLoop (fun code s => App.generate_cell_doc code ctx s) cs st
  ∧ documentCellsLoop (fun code s => Streamlit.generate_cell_doc code ctx s) (c :: cs) st
      = documentCellsLoop (fun code s => Streamlit.generate_cell_doc code ctx s) cs st := by
  have hsplit : (c.type == CellType.code && pyStrip c.content != "") = false
      ∧ (c.type == CellType.markdown) = false := by
    constructor
    · by_cases h1 : (c.type == CellType.code && pyStrip c.content != "") = true
      · exfalso
        rw [keepCell, h1] at h
        simp at h
      · exact Bool.eq_false_iff.mpr h1
    · by_cases h2 : (c.type == CellType.markdown) = true
      · exfalso
        rw [keepCell, h2] at h
        simp at h
      · exact Bool.eq_false_iff.mpr h2
  have hn1 : ¬ (c.type == CellType.code && pyStrip c.content != "") = true := by
    rw [hsplit.1]; simp
  have hn2 : ¬ (c.type == CellType.markdown) = true := by
    rw [hsplit.2]; simp
  refine ⟨?_, ?_, ?_, ?_⟩
  · exact documentCellsLoop_sublist _ (extract_cells nb) _
  · exact documentCellsLoop_sublist _ (extract_cells nb) _
  · simp only [documentCellsLoop]
    rw [if_neg hn1, if_neg hn2]
  · simp only [documentCellsLoop]
    rw [if_neg hn1, if_neg hn2]

/-- Claim C1, witness for the amended theorem at a concrete input. -/
theorem c1_witness :
    (((extract_cells [RawCell.mk CellType.markdown "note" [] none []]).filter keepCell).map
        rawOf).Sublist
      ((App.create_documented_notebook [RawCell.mk CellType.markdown "note" [] none []]
          (freshState fun _ => Except.ok "D")).1.tail)
  ∧ (((extract_cells [RawCell.mk CellType.markdown "note" [] none []]).filter keepCell).map
        rawOf).Sublist
      ((Streamlit.create_documented_notebook [RawCell.mk CellType.markdown "note" [] none []]
          (freshState fun _ => Except.ok "D")).1.tail)
  ∧ documentCellsLoop (fun code s => App.generate_cell_doc code "" s)
        (Cell.mk CellType.code "" :: []) (freshState fun _ => Except.ok "D")
      = documentCellsLoop (fun code s => App.generate_cell_doc code "" s) []
          (freshState fun _ => Except.ok "D")
  ∧ documentCellsLoop (fun code s => Streamlit.generate_cell_doc code "" s)
        (Cell.mk CellType.code "" :: []) (freshState fun _ => Except.ok "D")
      = documentCellsLoop (fun code s => Streamlit.generate_cell_doc code "" s) []
          (freshState fun _ => Except.ok "D") :=
  c1_kept_cells_in_order (fun _ => Except.ok "D")
    [RawCell.mk CellType.markdown "note" [] none []] ""
    (Cell.mk CellType.code "") [] (freshState fun _ => Except.ok "D") (by decide)

/-- Claim C2: for a code cell whose content is non-empty after
stripping, the assembler emits a commentary markdown cell immediately
before the code cell exactly when the annotation call returns non-empty
text, with content equal to the returned text; an empty annotation
result inserts no commentary cell.  Stated for the loop of both entry
points. -/
theorem c2_commentary_iff (ctx : String) (c : Cell) (cs : List Cell) (st : ClientState)
    (h1 : c.type = CellType.code) (h2 : pyStrip c.content ≠ "") :
    (documentCellsLoop (fun code s => App.generate_cell_doc code ctx s) (c :: cs) st).1
      = (if (App.generate_cell_doc c.content ctx st).1 = "" then [new_code_cell c.content]
         else [new_markdown_cell (App.generate_cell_doc c.content ctx st).1,
               new_code_cell c.content])
        ++ (documentCellsLoop (fun code s => App.generate_cell_doc code ctx s) cs
              (App.generate_cell_doc c.content ctx st).2).1
  ∧ (documentCellsLoop (fun code s => Streamlit.generate_cell_doc code ctx s) (c :: cs) st).1
      = (if (Streamlit.generate_cell_doc c.content ctx st).1 = "" then [new_code_cell c.content]
         else [new_markdown_cell (Streamlit.generate_cell_doc c.content ctx st).1,
               new_code_cell c.content])
        ++ (documentCellsLoop (fun code s => Streamlit.generate_cell_doc code ctx s) cs
              (Streamlit.generate_cell_doc c.content ctx st).2).1 := by
  have hcond : (c.type == CellType.code && pyStrip c.content != "") = true := by
    rw [h1]; simp [bne_iff_ne.mpr h2]
  constructor
  · simp only [documentCellsLoop]
    rw [if_pos hcond]
    dsimp only
    by_cases hd : (App.generate_cell_doc c.content ctx st).1 = ""
    · rw [if_neg (by simp [hd]), if_pos hd]
      simp
    · rw [if_pos (bne_iff_ne.mpr hd), if_neg hd]
      simp
  · simp only [documentCellsLoop]
    rw [if_pos hcond]
    dsimp only
    by_cases hd : (Streamlit.generate_cell_doc c.content ctx st).1 = ""
    · rw [if_neg (by simp [hd]), if_pos hd]
      simp
    · rw [if_pos (bne_iff_ne.mpr hd), if_neg hd]
      simp

/-- Claim C2, witness at a concrete non-empty code cell. -/
theorem c2_witness :
    (documentCellsLoop (fun code s => App.generate_cell_doc code "x=1" s)
        (Cell.mk CellType.code "x=1" :: []) (freshState fun _ => Except.ok "Assigns one")).1
      = (if (App.generate_cell_doc "x=1" "x=1" (freshState fun _ => Except.ok "Assigns one")).1
            = "" then [new_code_cell "x=1"]
         else [new_markdown_cell
                (App.generate_cell_doc "x=1" "x=1"
                  (freshState fun _ => Except.ok "Assigns one")).1,
               new_code_cell "x=1"])
        ++ (documentCellsLoop (fun code s => App.generate_cell_doc code "x=1" s) []
              (App.generate_cell_doc "x=1" "x=1"
                (freshState fun _ => Except.ok "Assigns one")).2).1
  ∧ (documentCellsLoop (fun code s => Streamlit.generate_cell_doc code "x=1" s)
        (Cell.mk CellType.code "x=1" :: []) (freshState fun _ => Except.ok "Assigns one")).1
      = (if (Streamlit.generate_cell_doc "x=1" "x=1"
              (freshState fun _ => Except.ok "Assigns one")).1 = ""
         then [new_code_cell "x=1"]
         else [new_markdown_cell
                (Streamlit.generate_cell_doc "x=1" "x=1"
                  (freshState fun _ => Except.ok "Assigns one")).1,
               new_code_cell "x=1"])
        ++ (documentCellsLoop (fun code s => Streamlit.generate_cell_doc code "x=1" s) []
              (Streamlit.generate_cell_doc "x=1" "x=1"
                (freshState fun _ => Except.ok "Assigns one")).2).1 :=
  c2_commentary_iff "x=1" (Cell.mk CellType.code "x=1") []
    (freshState fun _ => Except.ok "Assigns one") rfl (by decide)

/-- Claim C3, counterexample: when the completion service succeeds with
empty text, the first output cell of either entry point is a markdown
cell whose content is empty — the claim's "never empty" fails. -/
theorem c3_counterexample :
    (App.create_documented_notebook [] (freshState fun _ => Except.ok "")).1
      = [new_markdown_cell ""]
  ∧ (Streamlit.create_documented_notebook [] (freshState fun _ => Except.ok "")).1
      = [new_markdown_cell ""] := by
  refine ⟨by decide, by decide⟩

/-- Claim C3, amended: the first output cell is always the overview
markdown cell, emitted unconditionally; its content is non-empty
whenever the overview call fails (fixed fallback text) or succeeds with
text that is non-empty after stripping — but a successful completion
whose text strips to empty yields an empty first cell. -/
theorem c3_first_cell_overview (nb : List RawCell) (st : ClientState)
    (h : ∀ t, st.oracle st.calls = Except.ok t → pyStrip t ≠ "") :
    (App.create_documented_notebook nb st).1.head?
        = some (new_markdown_cell (App.get_notebook_overview (extract_cells nb) st).1)
  ∧ (App.get_notebook_overview (extract_cells nb) st).1 ≠ ""
  ∧ (Streamlit.create_documented_notebook nb st).1.head?
        = some (new_markdown_cell (Streamlit.get_notebook_overview (extract_cells nb) st).1)
  ∧ (Streamlit.get_notebook_overview (extract_cells nb) st).1 ≠ "" := by
  refine ⟨rfl, ?_, rfl, ?_⟩
  · cases hcall : st.oracle st.calls with
    | ok t =>
      simp only [App.get_notebook_overview, callLLM, hcall]
      exact h t hcall
    | error e =>
      simp only [App.get_notebook_overview, callLLM, hcall]
      decide
  · cases hcall : st.oracle st.calls with
    | ok t =>
      simp only [Streamlit.get_notebook_overview, callLLM, hcall]
      exact h t hcall
    | error e =>
      simp only [Streamlit.get_notebook_overview, callLLM, hcall]
      exact string_append_star_ne _

/-- Claim C3, witness: concrete run whose overview call fails. -/
theorem c3_witness :
    (App.create_documented_notebook [] (freshState fun _ => Except.error "down")).1.head?
        = some (new_markdown_cell
            (App.get_notebook_overview (extract_cells [])
              (freshState fun _ => Except.error "down")).1)
  ∧ (App.get_notebook_overview (extract_cells [])
        (freshState fun _ => Except.error "down")).1 ≠ ""
  ∧ (Streamlit.create_documented_notebook [] (freshState fun _ => Except.error "down")).1.head?
        = some (new_markdown_cell
            (Streamlit.get_notebook_overview (extract_cells [])
              (freshState fun _ => Except.error "down")).1)
  ∧ (Streamlit.get_notebook_overview (extract_cells [])
        (freshState fun _ => Except.error "down")).1 ≠ "" :=
  c3_first_cell_overview [] (freshState fun _ => Except.error "down")
    (by intro t ht; exact Except.noConfusion ht)

/-- Claim C4, counterexample: the CLI entry point's annotator has no
empty-content guard — on an empty cell it still issues one completion
call and returns its (stripped) text rather than the empty string. -/
theorem c4_counterexample :
    (App.generate_cell_doc "" "" (freshState fun _ => Except.ok "hello")).1 = "hello"
  ∧ (App.generate_cell_doc "" "" (freshState fun _ => Except.ok "hello")).2.calls = 1
  ∧ (App.generate_cell_doc "" "" (freshState fun _ => Except.ok "hello")).2.trace
      = [Prompt.cellDoc "" ""] := by
  refine ⟨by decide, rfl, rfl⟩

/-- Claim C4, amended: in the streamlit entry point the annotator
itself returns the empty string, with no completion call and no state
change, whenever the cell's code strips to empty; the CLI entry point's
annotator has no such guard (only its caller filters empty cells). -/
theorem c4_streamlit_skip (cell_content full_context : String) (st : ClientState)
    (h : pyStrip cell_content = "") :
    Streamlit.generate_cell_doc cell_content full_context st = ("", st) := by
  have hb : (pyStrip cell_content == "") = true := beq_iff_eq.mpr h
  simp [Streamlit.generate_cell_doc, hb]

/-- Claim C4, witness: whitespace-only cell content. -/
theorem c4_witness :
    Streamlit.generate_cell_doc "   " "ctx" (freshState fun _ => Except.ok "x")
      = ("", freshState fun _ => Except.ok "x") :=
  c4_streamlit_skip "   " "ctx" (freshState fun _ => Except.ok "x") (by decide)

/-- Claim C5, counterexample: with two code cells `"a"` and `"b"`, the
overview call receives the single-newline join `"a\nb"` while the
per-cell calls receive the blank-line join `"a\n\nb"` — the two
independently derived context strings differ, so they are not both
blank-line joins. -/
theorem c5_counterexample :
    (App.create_documented_notebook
        [RawCell.mk CellType.code "a" [] none [], RawCell.mk CellType.code "b" [] none []]
        (freshState fun _ => Except.ok "d")).2.trace
      = [Prompt.overview "a\nb", Prompt.cellDoc "a" "a\n\nb", Prompt.cellDoc "b" "a\n\nb"]
  ∧ (Streamlit.create_documented_notebook
        [RawCell.mk CellType.code "a" [] none [], RawCell.mk CellType.code "b" [] none []]
        (freshState fun _ => Except.ok "d")).2.trace
      = [Prompt.overview "a\nb", Prompt.cellDoc "a" "a\n\nb", Prompt.cellDoc "b" "a\n\nb"]
  ∧ ("a\nb" : String) ≠ String.intercalate "\n\n" ["a", "b"] := by
  refine ⟨by decide, by decide, by decide⟩

/-- Claim C5, amended: both context strings concatenate the content of
every code cell (empty ones included) in original order, but with
different separators — the overview context joins with a single newline
`"\n"`, the per-cell context with a blank line `"\n\n"`; every per-cell
call receives the same blank-line-joined context. -/
theorem c5_two_contexts (o : Nat → Except String String) (nb : List RawCell) :
    (App.create_documented_notebook nb (freshState o)).2.trace.head?
        = some (Prompt.overview (String.intercalate "\n" (codeContents (extract_cells nb))))
  ∧ (App.create_documented_notebook nb (freshState o)).2.trace.tail
        = ((extract_cells nb).filter annotatedCell).map
            (fun c => Prompt.cellDoc c.content
              (String.intercalate "\n\n" (codeContents (extract_cells nb))))
  ∧ (Streamlit.create_documented_notebook nb (freshState o)).2.trace.head?
        = some (Prompt.overview (String.intercalate "\n" (codeContents (extract_cells nb))))
  ∧ (Streamlit.create_documented_notebook nb (freshState o)).2.trace.tail
        = ((extract_cells nb).filter annotatedCell).map
            (fun c => Prompt.cellDoc c.content
              (String.intercalate "\n\n" (codeContents (extract_cells nb)))) := by
  refine ⟨?_, ?_, ?_, ?_⟩
  · rw [(app_run_state o nb).1]; rfl
  · rw [(app_run_state o nb).1]; rfl
  · rw [(streamlit_run_state o nb).1]; rfl
  · rw [(streamlit_run_state o nb).1]; rfl

/-- Claim C6: with an oracle on which every completion call raises, in
either entry point the run still completes, converting every failure
into marker text: the output is the fallback overview cell followed by
a marker commentary cell and code cell per non-blank code cell (and
markdown cells in place), and all `1 + n` calls are still issued — the
failed overview call does not prevent the per-cell calls. -/
theorem c6_failure_isolated (e : String) (nb : List RawCell) :
    (App.create_documented_notebook nb (freshState fun _ => Except.error e)).1
        = new_markdown_cell "# Jupyter Notebook Documentation\n\n*Error generating overview*"
            :: (extract_cells nb).flatMap (fun c =>
                if annotatedCell c then
                  [new_markdown_cell "*Error generating documentation*",
                   new_code_cell c.content]
                else if c.type == CellType.markdown then [new_markdown_cell c.content]
                else [])
  ∧ (App.create_documented_notebook nb (freshState fun _ => Except.error e)).2.calls
        = 1 + ((extract_cells nb).filter annotatedCell).length
  ∧ (Streamlit.create_documented_notebook nb (freshState fun _ => Except.error e)).1
        = new_markdown_cell
            ("# Jupyter Notebook Documentation\n\n*Error generating overview: " ++ e ++ "*")
            :: (extract_cells nb).flatMap (fun c =>
                if annotatedCell c then
                  [new_markdown_cell ("*Error generating documentation: " ++ e ++ "*"),
                   new_code_cell c.content]
                else if c.type == CellType.markdown then [new_markdown_cell c.content]
                else [])
  ∧ (Streamlit.create_documented_notebook nb (freshState fun _ => Except.error e)).2.calls
        = 1 + ((extract_cells nb).filter annotatedCell).length := by
  refine ⟨?_, (app_run_state _ nb).2, ?_, (streamlit_run_state _ nb).2⟩
  · have e1 : (App.create_documented_notebook nb (freshState fun _ => Except.error e)).1
        = new_markdown_cell "# Jupyter Notebook Documentation\n\n*Error generating overview*"
            :: (documentCellsLoop
                (fun code s => App.generate_cell_doc code
                  (String.intercalate "\n\n" (codeContents (extract_cells nb))) s)
                (extract_cells nb)
                ((App.get_notebook_overview (extract_cells nb)
                    (freshState fun _ => Except.error e)).2)).1 := rfl
    rw [e1]
    congr 1
    refine documentCellsLoop_marker _ _ (fun _ => Except.error e) ?_ (by decide)
      (extract_cells nb) _ rfl
    intro content st hst hne
    refine ⟨?_, ?_⟩
    · have hcall : st.oracle st.calls = Except.error e := by rw [hst]
      simp [App.generate_cell_doc, callLLM, hcall]
    · rw [app_cell_doc_snd]
      exact hst
  · have e1 : (Streamlit.create_documented_notebook nb (freshState fun _ => Except.error e)).1
        = new_markdown_cell
            ("# Jupyter Notebook Documentation\n\n*Error generating overview: " ++ e ++ "*")
            :: (documentCellsLoop
                (fun code s => Streamlit.generate_cell_doc code
                  (String.intercalate "\n\n" (codeContents (extract_cells nb))) s)
                (extract_cells nb)
                ((Streamlit.get_notebook_overview (extract_cells nb)
                    (freshState fun _ => Except.error e)).2)).1 := rfl
    rw [e1]
    congr 1
    refine documentCellsLoop_marker _ _ (fun _ => Except.error e) ?_
      (string_append_star_ne _) (extract_cells nb) _ rfl
    intro content st hst hne
    refine ⟨?_, ?_⟩
    · have hb : (pyStrip content == "") = false := beq_eq_false_iff_ne.mpr hne
      have hcall : st.oracle st.calls = Except.error e := by rw [hst]
      simp [Streamlit.generate_cell_doc, hb, callLLM, hcall]
    · rw [streamlit_cell_doc_snd content _ st hne]
      exact hst

/-- Claim C8: a run from a fresh client issues exactly
`1 + (number of code cells with non-empty stripped content)` completion
calls, sequentially, with the overview call first and then one
annotation call per such code cell in original cell order — in both
entry points. -/
theorem c8_call_count (o : Nat → Except String String) (nb : List RawCell) :
    (App.create_documented_notebook nb (freshState o)).2.calls
        = 1 + ((extract_cells nb).filter annotatedCell).length
  ∧ (App.create_documented_notebook nb (freshState o)).2.trace
        = Prompt.overview (String.intercalate "\n" (codeContents (extract_cells nb)))
            :: ((extract_cells nb).filter annotatedCell).map
              (fun c => Prompt.cellDoc c.content
                (String.intercalate "\n\n" (codeContents (extract_cells nb))))
  ∧ (Streamlit.create_documented_notebook nb (freshState o)).2.calls
        = 1 + ((extract_cells nb).filter annotatedCell).length
  ∧ (Streamlit.create_documented_notebook nb (freshState o)).2.trace
        = Prompt.overview (String.intercalate "\n" (codeContents (extract_cells nb)))
            :: ((extract_cells nb).filter annotatedCell).map
              (fun c => Prompt.cellDoc c.content
                (String.intercalate "\n\n" (codeContents (extract_cells nb)))) :=
  ⟨(app_run_state o nb).2, (app_run_state o nb).1,
   (streamlit_run_state o nb).2, (streamlit_run_state o nb).1⟩

/-- Claim C7, counterexample: in the streamlit entry point two
different raised errors yield two different annotation-failure marker
strings — the marker varies with the error encountered. -/
theorem c7_counterexample :
    (Streamlit.generate_cell_doc "x=1" "x=1" (freshState fun _ => Except.error "boom")).1
      = "*Error generating documentation: boom*"
  ∧ (Streamlit.generate_cell_doc "x=1" "x=1" (freshState fun _ => Except.error "crash")).1
      = "*Error generating documentation: crash*"
  ∧ (Streamlit.generate_cell_doc "x=1" "x=1" (freshState fun _ => Except.error "boom")).1
      ≠ (Streamlit.generate_cell_doc "x=1" "x=1" (freshState fun _ => Except.error "crash")).1
    := by
  refine ⟨by decide, by decide, by decide⟩

/-- Claim C7, amended: on a failed call the CLI entry point substitutes
fixed markers independent of the error, while the streamlit entry point
substitutes a fixed recognizable marker prefix followed by the error
text — deterministic in shape but varying with the error encountered. -/
theorem c7_failure_markers (cells : List Cell) (cell_content full_context e : String)
    (st : ClientState)
    (h1 : st.oracle st.calls = Except.error e) (h2 : pyStrip cell_content ≠ "") :
    (App.generate_cell_doc cell_content full_context st).1
        = "*Error generating documentation*"
  ∧ (App.get_notebook_overview cells st).1
        = "# Jupyter Notebook Documentation\n\n*Error generating overview*"
  ∧ (Streamlit.generate_cell_doc cell_content full_context st).1
        = "*Error generating documentation: " ++ e ++ "*"
  ∧ (Streamlit.get_notebook_overview cells st).1
        = "# Jupyter Notebook Documentation\n\n*Error generating overview: " ++ e ++ "*" := by
  have hb : (pyStrip cell_content == "") = false := beq_eq_false_iff_ne.mpr h2
  refine ⟨?_, ?_, ?_, ?_⟩
  · simp [App.generate_cell_doc, callLLM, h1]
  · simp [App.get_notebook_overview, callLLM, h1]
  · simp [Streamlit.generate_cell_doc, hb, callLLM, h1]
  · simp [Streamlit.get_notebook_overview, callLLM, h1]

/-- Claim C7, witness at a concrete failing call. -/
theorem c7_witness :
    (App.generate_cell_doc "x=1" "" (freshState fun _ => Except.error "boom")).1
        = "*Error generating documentation*"
  ∧ (App.get_notebook_overview [] (freshState fun _ => Except.error "boom")).1
        = "# Jupyter Notebook Documentation\n\n*Error generating overview*"
  ∧ (Streamlit.generate_cell_doc "x=1" "" (freshState fun _ => Except.error "boom")).1
        = "*Error generating documentation: " ++ "boom" ++ "*"
  ∧ (Streamlit.get_notebook_overview [] (freshState fun _ => Except.error "boom")).1
        = "# Jupyter Notebook Documentation\n\n*Error generating overview: " ++ "boom" ++ "*" :=
  c7_failure_markers [] "x=1" "" "boom" (freshState fun _ => Except.error "boom")
    rfl (by decide)

/-- Claim C9: link resolution first tries the ordered identifier
patterns; if none matches it fails with the identifier-not-found error
having requested no URL at all; if one matches, the two canonical
download URL templates are requested in order, the first response with
success status that parses as a notebook is accepted, and otherwise the
descriptive not-publicly-accessible error is raised after requesting
exactly the two template URLs. -/
theorem c9_link_resolution (net : String → Except String HttpResponse)
    (parse : String → Option (List RawCell)) (colab_url : String) :
    download_colab_notebook net parse colab_url =
      match extract_file_id colab_url with
      | none => (Except.error idErrorMsg, [])
      | some file_id =>
        match fetchOk net parse ("https://drive.google.com/uc?id=" ++ file_id) with
        | some nb => (Except.ok nb, ["https://drive.google.com/uc?id=" ++ file_id])
        | none =>
          match fetchOk net parse
              ("https://drive.google.com/uc?export=download&id=" ++ file_id) with
          | some nb =>
              (Except.ok nb,
               ["https://drive.google.com/uc?id=" ++ file_id,
                "https://drive.google.com/uc?export=download&id=" ++ file_id])
          | none =>
              (Except.error notPublicMsg,
               ["https://drive.google.com/uc?id=" ++ file_id,
                "https://drive.google.com/uc?export=download&id=" ++ file_id]) := by
  cases hid : extract_file_id colab_url with
  | none => simp [download_colab_notebook, hid]
  | some fid =>
    simp only [download_colab_notebook, hid]
    rw [tryDownloadUrls_cons]
    cases hf1 : fetchOk net parse ("https://drive.google.com/uc?id=" ++ fid) with
    | some nb => simp [hf1]
    | none =>
      simp only [hf1]
      rw [tryDownloadUrls_cons]
      cases hf2 : fetchOk net parse
          ("https://drive.google.com/uc?export=download&id=" ++ fid) with
      | some nb => simp [hf2, tryDownloadUrls]
      | none => simp [hf2, tryDownloadUrls]

/-- Claim C10: the pipeline output depends only on the kind-and-source
projection of the input cells (outputs, execution counts and metadata
are discarded by extraction), and every output cell is freshly
constructed, carrying no outputs, no execution count and no metadata. -/
theorem c10_frame (nb1 nb2 : List RawCell) (st : ClientState)
    (h : extract_cells nb1 = extract_cells nb2) :
    App.create_documented_notebook nb1 st = App.create_documented_notebook nb2 st
  ∧ Streamlit.create_documented_notebook nb1 st = Streamlit.create_documented_notebook nb2 st
  ∧ (App.create_documented_notebook nb1 st).1.all freshCell = true
  ∧ (Streamlit.create_documented_notebook nb1 st).1.all freshCell = true := by
  refine ⟨?_, ?_, ?_, ?_⟩
  · show App.document_cells (extract_cells nb1) st = App.document_cells (extract_cells nb2) st
    rw [h]
  · show Streamlit.document_cells (extract_cells nb1) st
        = Streamlit.document_cells (extract_cells nb2) st
    rw [h]
  · have e1 : (App.create_documented_notebook nb1 st).1
        = new_markdown_cell (App.get_notebook_overview (extract_cells nb1) st).1
            :: (documentCellsLoop
                (fun code s => App.generate_cell_doc code
                  (String.intercalate "\n\n" (codeContents (extract_cells nb1))) s)
                (extract_cells nb1)
                ((App.get_notebook_overview (extract_cells nb1) st).2)).1 := rfl
    rw [e1, List.all_cons, documentCellsLoop_fresh]
    rfl
  · have e1 : (Streamlit.create_documented_notebook nb1 st).1
        = new_markdown_cell (Streamlit.get_notebook_overview (extract_cells nb1) st).1
            :: (documentCellsLoop
                (fun code s => Streamlit.generate_cell_doc code
                  (String.intercalate "\n\n" (codeContents (extract_cells nb1))) s)
                (extract_cells nb1)
                ((Streamlit.get_notebook_overview (extract_cells nb1) st).2)).1 := rfl
    rw [e1, List.all_cons, documentCellsLoop_fresh]
    rfl

/-- Claim C10, witness: two concrete one-cell notebooks that differ
only in outputs, execution count and metadata produce identical
results. -/
theorem c10_witness :
    App.create_documented_notebook
        [RawCell.mk CellType.code "x=1" ["out"] (some 3) [("collapsed", "true")]]
        (freshState fun _ => Except.ok "doc")
      = App.create_documented_notebook [RawCell.mk CellType.code "x=1" [] none []]
          (freshState fun _ => Except.ok "doc")
  ∧ Streamlit.create_documented_notebook
        [RawCell.mk CellType.code "x=1" ["out"] (some 3) [("collapsed", "true")]]
        (freshState fun _ => Except.ok "doc")
      = Streamlit.create_documented_notebook [RawCell.mk CellType.code "x=1" [] none []]
          (freshState fun _ => Except.ok "doc")
  ∧ (App.create_documented_notebook
        [RawCell.mk CellType.code "x=1" ["out"] (some 3) [("collapsed", "true")]]
        (freshState fun _ => Except.ok "doc")).1.all freshCell = true
  ∧ (Streamlit.create_documented_notebook
        [RawCell.mk CellType.code "x=1" ["out"] (some 3) [("collapsed", "true")]]
        (freshState fun _ => Except.ok "doc")).1.all freshCell = true :=
  c10_frame [RawCell.mk CellType.code "x=1" ["out"] (some 3) [("collapsed", "true")]]
    [RawCell.mk CellType.code "x=1" [] none []]
    (freshState fun _ => Except.ok "doc") (by decide)
